import Mathlib

/-!
Verification of the genetic-system dashboard client and of the mating
recommendation contract it consumes.

The client code under `frontend/js/pages/dashboard.js` is embedded directly
(HTTP helpers `API.get` / `API.post` / `API.put`, the request builder
`API.createBatchMating`, the bar-percentage computation of
`updateHerdAverages`, and `getInbreedingColor`).  JavaScript numbers are
embedded as rationals (`Rat`); the JavaScript truthiness test of `x || d`
is embedded explicitly (`none`, `0`, `false` and `""` are falsy).

The backend recommendation engine is not part of the repository excerpt:
only its HTTP contract is visible.  Those definitions are modelled from the
spec, as marked in their doc comments.
-/

/-- One HTTP response as the client observes it: the status code, the
status text, the optional `error` string field of the JSON body, and the
rest of the body (kept abstract as a string). -/
structure HttpResponse where
  status : Nat
  statusText : String
  bodyError : Option String
  bodyData : String

/-- `response.ok` of the Fetch API: status in the inclusive range 200–299. -/
def responseOk (r : HttpResponse) : Bool :=
  decide (200 ≤ r.status ∧ r.status ≤ 299)

/-- JavaScript `v || d` on an optional string: `undefined` and `""` are falsy. -/
def jsOrStr (v : Option String) (d : String) : String :=
  match v with
  | none => d
  | some s => if s = "" then d else s

/-- JavaScript `v || d` on an optional number: `undefined` and `0` are falsy. -/
def jsOrNum (v : Option Rat) (d : Rat) : Rat :=
  match v with
  | none => d
  | some x => if x = 0 then d else x

/-- JavaScript `v || d` on an optional boolean: `undefined` and `false` are falsy. -/
def jsOrBool (v : Option Bool) (d : Bool) : Bool :=
  match v with
  | none => d
  | some b => if b then b else d

/-- `API.get`: returns the parsed body on a 2xx response; otherwise throws
`HTTP <status>: <statusText>` (it does not read the body's `error` field). -/
def API.get (r : HttpResponse) : Except String String :=
  if responseOk r then Except.ok r.bodyData
  else Except.error ("HTTP " ++ toString r.status ++ ": " ++ r.statusText)

/-- `API.post`: returns the parsed body on a 2xx response; otherwise throws
`error.error || HTTP <status>`, i.e. the body's `error` string when it is
present and truthy, with `HTTP <status>` as the fallback. -/
def API.post (r : HttpResponse) : Except String String :=
  if responseOk r then Except.ok r.bodyData
  else Except.error (jsOrStr r.bodyError ("HTTP " ++ toString r.status))

/-- `API.put`: returns the parsed body on a 2xx response; otherwise throws
`HTTP <status>` (it does not read the body's `error` field). -/
def API.put (r : HttpResponse) : Except String String :=
  if responseOk r then Except.ok r.bodyData
  else Except.error ("HTTP " ++ toString r.status)

/-- The options object accepted by `API.createBatchMating`; absent
properties are `none`. -/
structure BatchOptions where
  priorities : Option (List Rat)
  max_inbreeding : Option Rat
  top_n : Option Rat
  filters : Option String
  save : Option Bool

/-- The JSON body sent to `POST /matings/batch`. -/
structure BatchBody where
  female_ids : List Nat
  priorities : Option (List Rat)
  max_inbreeding : Rat
  top_n : Rat
  filters : Option String
  save : Bool

/-- `API.createBatchMating`: builds the request body, defaulting
`max_inbreeding` to 6.0, `top_n` to 5 and `save` to `false` via the
JavaScript `||` operator. -/
def API.createBatchMating (femaleIds : List Nat) (options : BatchOptions) : BatchBody :=
  { female_ids := femaleIds
    priorities := options.priorities
    max_inbreeding := jsOrNum options.max_inbreeding 6
    top_n := jsOrNum options.top_n 5
    filters := options.filters
    save := jsOrBool options.save false }

/-- Bar width for the MILK average, from `updateHerdAverages`:
`Math.max(0, Math.min(100, ((milk + 1000) / 3000) * 100))`. -/
def milkPercent (milk : Rat) : Rat :=
  max 0 (min 100 ((milk + 1000) / 3000 * 100))

/-- Bar width for the Productive Life average, from `updateHerdAverages`:
`Math.max(0, Math.min(100, ((pl + 3) / 11) * 100))`. -/
def plPercent (pl : Rat) : Rat :=
  max 0 (min 100 ((pl + 3) / 11 * 100))

/-- Bar width for the genomic inbreeding average, from `updateHerdAverages`
(inverted scale): `Math.max(0, Math.min(100, 100 - (inb / 10 * 100)))`. -/
def inbPercent (inb : Rat) : Rat :=
  max 0 (min 100 (100 - inb / 10 * 100))

/-- The three bar-width percentages computed by `updateHerdAverages` for
the numeric herd averages (milk, productive life, genomic inbreeding). -/
def updateHerdAverages (milk pl inb : Rat) : Rat × Rat × Rat :=
  (milkPercent milk, plPercent pl, inbPercent inb)

/-- `getInbreedingColor`: green below 6%, yellow from 6% below 8%, red
from 8% on. -/
def getInbreedingColor (inbreeding : Rat) : String :=
  if inbreeding < 6 then "success"
  else if inbreeding < 8 then "warning"
  else "danger"

/-- Modelled from the spec: a Female of the catalog (the backend data model
is absent from the excerpt), with identifier, genetic index values and
active status. -/
structure Female where
  id : Nat
  indices : List Rat
  active : Bool
deriving DecidableEq

/-- Modelled from the spec: a Bull of the catalog, with unique code, name,
availability flag and genetic index values. -/
structure Bull where
  code : Nat
  name : String
  available : Bool
  indices : List Rat
deriving DecidableEq

/-- Modelled from the spec: one candidate pairing returned for a female,
carrying the bull's code, the computed inbreeding percentage and the
composite suitability score. -/
structure Candidate where
  bull_code : Nat
  inbreeding : Rat
  score : Rat
deriving DecidableEq

/-- Modelled from the spec: a persisted Mating record (identifier, the
pairing and its computed metrics). -/
structure Mating where
  id : Nat
  female_id : Nat
  bull_code : Nat
  inbreeding : Rat
  score : Rat
deriving DecidableEq

/-- Modelled from the spec: the backend environment the engine reads —
the Female and Bull catalogs and the inbreeding estimator
(pedigree-based or genomic; its formula is not given, so it is kept as an
abstract function of the female id and the bull code). -/
structure Env where
  females : List Female
  bulls : List Bull
  inb : Nat → Nat → Rat

/-- Modelled from the spec: a batch mating request — female identifiers,
optional priority weights, the maximum-inbreeding threshold, the result
count per female, optional attribute filters narrowing the bull pool, and
the save flag. -/
structure BatchRequest where
  female_ids : List Nat
  priorities : Option (List Rat)
  max_inbreeding : Rat
  top_n : Nat
  filters : Bull → Bool
  save : Bool

/-- Modelled from the spec: the append-only Mating store with monotonic
identifier allocation. -/
structure ServerState where
  matings : List Mating
  next_id : Nat
deriving DecidableEq

/-- Modelled from the spec: the error taxonomy of the HTTP contract. -/
inductive ApiError where
  | NotFoundError
  | ValidationError
  | ConflictError
  | TimeoutError
deriving DecidableEq

/-- Modelled from the spec: the suitability score, a weighted combination
of the bull's genetic indices (weights from `priorities`, default equal
weighting). -/
def scoreOf (priorities : Option (List Rat)) (b : Bull) : Rat :=
  match priorities with
  | some w => (List.zipWith (fun x y => x * y) w b.indices).sum
  | none => b.indices.sum

/-- Modelled from the spec: the bull pool for a request — the catalog
narrowed to available bulls passing the request's filters. -/
def eligibleBulls (env : Env) (req : BatchRequest) : List Bull :=
  env.bulls.filter (fun b => b.available && req.filters b)

/-- Modelled from the spec: the candidate built for a female and a bull —
inbreeding from the estimator, score from the priorities. -/
def mkCandidate (env : Env) (req : BatchRequest) (fid : Nat) (b : Bull) : Candidate :=
  { bull_code := b.code
    inbreeding := env.inb fid b.code
    score := scoreOf req.priorities b }

/-- Modelled from the spec: step 2 of the processing contract — candidates
of the eligible pool whose inbreeding is strictly below the threshold
(bulls with inbreeding ≥ `max_inbreeding` are discarded). -/
def keptCandidates (env : Env) (req : BatchRequest) (fid : Nat) : List Candidate :=
  ((eligibleBulls env req).map (mkCandidate env req fid)).filter
    (fun c => decide (c.inbreeding < req.max_inbreeding))

/-- Modelled from the spec: the ranking order — score descending, with
ascending inbreeding as the tiebreak. -/
def candBefore (a b : Candidate) : Prop :=
  b.score < a.score ∨ (a.score = b.score ∧ a.inbreeding ≤ b.inbreeding)

instance : DecidableRel candBefore := fun a b =>
  inferInstanceAs
    (Decidable (b.score < a.score ∨ (a.score = b.score ∧ a.inbreeding ≤ b.inbreeding)))

/-- Modelled from the spec: steps 2–4 of the processing contract for one
female — filter by the inbreeding threshold, sort by score descending
(inbreeding ascending as tiebreak), take the first `top_n`. -/
def rankFemale (env : Env) (req : BatchRequest) (fid : Nat) : List Candidate :=
  (List.insertionSort candBefore (keptCandidates env req fid)).take req.top_n

/-- Modelled from the spec: the per-female ranked candidate lists of a
batch request. -/
def batchResults (env : Env) (req : BatchRequest) : List (Nat × List Candidate) :=
  req.female_ids.map (fun fid => (fid, rankFemale env req fid))

/-- Modelled from the spec: catalog lookup of a female by identifier. -/
def findFemale (env : Env) (fid : Nat) : Option Female :=
  env.females.find? (fun f => f.id == fid)

/-- Modelled from the spec: catalog lookup of a bull by code. -/
def findBull (env : Env) (code : Nat) : Option Bull :=
  env.bulls.find? (fun b => b.code == code)

/-- Modelled from the spec: persist one returned pairing as a Mating
record with a generated identifier. -/
def persistPair (fid : Nat) (c : Candidate) (s : ServerState) : ServerState :=
  { matings := s.matings ++ [⟨s.next_id, fid, c.bull_code, c.inbreeding, c.score⟩]
    next_id := s.next_id + 1 }

/-- Modelled from the spec: persist every returned pairing of a batch
result. -/
def persistAll (results : List (Nat × List Candidate)) (s : ServerState) : ServerState :=
  results.foldl (fun st p => p.2.foldl (fun st2 c => persistPair p.1 c st2) st) s

/-- Modelled from the spec: the `POST /matings/batch` handler —
`ValidationError` when `max_inbreeding` is negative or `top_n` ≤ 0,
`NotFoundError` when a referenced female is absent, otherwise a 2xx
response carrying the per-female ranked lists, persisted only when
`save` is true. -/
def batchMating (env : Env) (req : BatchRequest) (s : ServerState) :
    Except ApiError (List (Nat × List Candidate)) × ServerState :=
  if req.max_inbreeding < 0 then (Except.error ApiError.ValidationError, s)
  else if req.top_n = 0 then (Except.error ApiError.ValidationError, s)
  else if req.female_ids.any (fun fid => (findFemale env fid).isNone) then
    (Except.error ApiError.NotFoundError, s)
  else if req.save then
    (Except.ok (batchResults env req), persistAll (batchResults env req) s)
  else
    (Except.ok (batchResults env req), s)

/-- Modelled from the spec: the `POST /matings/manual` handler — creates a
single Female–Bull pairing directly, bypassing ranking, computing its
inbreeding metric; fails with `NotFoundError`, leaving the store
untouched, when either id is absent from its catalog. -/
def manualMating (env : Env) (fid bid : Nat) (save : Bool) (s : ServerState) :
    Except ApiError Mating × ServerState :=
  match findFemale env fid, findBull env bid with
  | some _, some b =>
    let m : Mating :=
      ⟨s.next_id, fid, b.code, env.inb fid b.code, scoreOf none b⟩
    if save then (Except.ok m, { matings := s.matings ++ [m], next_id := s.next_id + 1 })
    else (Except.ok m, s)
  | _, _ => (Except.error ApiError.NotFoundError, s)

/-! ## Concrete inputs used by the witnesses -/

/-- A small concrete bull catalog: three available bulls with one genetic
index each. -/
def demoBulls : List Bull :=
  [⟨1, "B1", true, [4]⟩, ⟨2, "B2", true, [7]⟩, ⟨3, "B3", true, [2]⟩]

/-- A small concrete environment: one female, the three demo bulls, and an
inbreeding estimator giving 4%, 7% and 2% for bulls 1, 2 and 3. -/
def demoEnv : Env :=
  { females := [⟨1, [500], true⟩]
    bulls := demoBulls
    inb := fun _ code => if code = 1 then 4 else if code = 2 then 7 else 2 }

/-- A concrete batch request with the client's default parameters
(`max_inbreeding = 6`, `top_n = 5`, `save = false`, no filters). -/
def demoReq : BatchRequest :=
  { female_ids := [1]
    priorities := none
    max_inbreeding := 6
    top_n := 5
    filters := fun _ => true
    save := false }

/-- The demo request with `max_inbreeding = 0`, a threshold no demo bull
satisfies. -/
def demoReqZero : BatchRequest :=
  { demoReq with max_inbreeding := 0 }

/-- An empty Mating store. -/
def demoState : ServerState :=
  { matings := [], next_id := 0 }

/-- A concrete non-2xx response whose JSON body carries an `error`
string. -/
def demoResp : HttpResponse :=
  { status := 404, statusText := "Not Found", bodyError := some "bull not found", bodyData := "" }

/-- Options for `API.createBatchMating` that explicitly pass
`max_inbreeding = 0` and `top_n = 0`. -/
def demoOptsZero : BatchOptions :=
  { priorities := none
    max_inbreeding := some 0
    top_n := some 0
    filters := none
    save := some true }

/-! ## Ordering lemmas for the ranking relation -/

instance : IsTrans Candidate candBefore := by
  constructor
  intro a b c hab hbc
  rcases hab with h1 | ⟨e1, i1⟩ <;> rcases hbc with h2 | ⟨e2, i2⟩
  · exact Or.inl (lt_trans h2 h1)
  · exact Or.inl (by rw [← e2]; exact h1)
  · exact Or.inl (by rw [e1]; exact h2)
  · exact Or.inr ⟨e1.trans e2, i1.trans i2⟩

instance : IsTotal Candidate candBefore := by
  constructor
  intro a b
  rcases lt_trichotomy a.score b.score with h | h | h
  · exact Or.inr (Or.inl h)
  · rcases le_total a.inbreeding b.inbreeding with hi | hi
    · exact Or.inl (Or.inr ⟨h, hi⟩)
    · exact Or.inr (Or.inr ⟨h.symm, hi⟩)
  · exact Or.inl (Or.inl h)

theorem candBefore_imp (a b : Candidate) (h : candBefore a b) :
    b.score ≤ a.score ∧ (a.score = b.score → a.inbreeding ≤ b.inbreeding) := by
  rcases h with h | ⟨e, i⟩
  · exact ⟨le_of_lt h, fun e => absurd h (by rw [e]; exact lt_irrefl _)⟩
  · exact ⟨le_of_eq e.symm, fun _ => i⟩

theorem rankFemale_subset_kept (env : Env) (req : BatchRequest) (fid : Nat)
    (c : Candidate) (h : c ∈ rankFemale env req fid) :
    c ∈ keptCandidates env req fid := by
  have h1 : c ∈ List.insertionSort candBefore (keptCandidates env req fid) :=
    List.mem_of_mem_take h
  exact (List.perm_insertionSort candBefore (keptCandidates env req fid)).mem_iff.mp h1

/-! ## Claims about the batch ranking -/

theorem rankFemale_inbreeding_lt (env : Env) (req : BatchRequest)
    (fid : Nat) (c : Candidate) (h : c ∈ rankFemale env req fid) :
    c.inbreeding < req.max_inbreeding := by
  have h2 : c ∈ keptCandidates env req fid := rankFemale_subset_kept env req fid c h
  have h3 := (List.mem_filter.mp h2).2
  exact of_decide_eq_true h3

theorem rankFemale_sorted (env : Env) (req : BatchRequest) (fid : Nat) :
    (rankFemale env req fid).Pairwise
      (fun a b => b.score ≤ a.score ∧ (a.score = b.score → a.inbreeding ≤ b.inbreeding)) := by
  have hs : (List.insertionSort candBefore (keptCandidates env req fid)).Pairwise candBefore :=
    List.sorted_insertionSort candBefore (keptCandidates env req fid)
  have ht : (rankFemale env req fid).Pairwise candBefore :=
    List.Pairwise.sublist (List.take_sublist _ _) hs
  exact ht.imp (fun h => candBefore_imp _ _ h)

theorem rankFemale_top_n (env : Env) (req : BatchRequest) (fid : Nat) :
    (rankFemale env req fid).length ≤ req.top_n ∧
      (req.top_n ≤ (keptCandidates env req fid).length →
        (rankFemale env req fid).length = req.top_n) ∧
      (∀ c ∈ rankFemale env req fid, ∀ d ∈ keptCandidates env req fid,
        d ∉ rankFemale env req fid → d.score ≤ c.score) := by
  refine ⟨List.length_take_le _ _, ?_, ?_⟩
  · intro hn
    have hlen : (List.insertionSort candBefore (keptCandidates env req fid)).length
        = (keptCandidates env req fid).length :=
      (List.perm_insertionSort candBefore (keptCandidates env req fid)).length_eq
    simp only [rankFemale, List.length_take, hlen]
    exact min_eq_left hn
  · intro c hc d hd hdn
    have hdL : d ∈ List.insertionSort candBefore (keptCandidates env req fid) :=
      (List.mem_insertionSort candBefore).mpr hd
    have hsplit :
        (List.insertionSort candBefore (keptCandidates env req fid)).take req.top_n ++
          (List.insertionSort candBefore (keptCandidates env req fid)).drop req.top_n =
          List.insertionSort candBefore (keptCandidates env req fid) :=
      List.take_append_drop _ _
    have hdd : d ∈ (List.insertionSort candBefore (keptCandidates env req fid)).drop req.top_n := by
      rw [← hsplit] at hdL
      rcases List.mem_append.mp hdL with h | h
      · exact absurd h hdn
      · exact h
    have hp : (List.insertionSort candBefore (keptCandidates env req fid)).Pairwise candBefore :=
      List.sorted_insertionSort candBefore (keptCandidates env req fid)
    rw [← hsplit] at hp
    have h3 := (List.pairwise_append.mp hp).2.2 c hc d hdd
    exact (candBefore_imp c d h3).1

theorem batchMating_ok (env : Env) (req : BatchRequest) (s : ServerState)
    (results : List (Nat × List Candidate))
    (h : (batchMating env req s).1 = Except.ok results) :
    results = batchResults env req := by
  unfold batchMating at h
  split_ifs at h <;> cases h <;> rfl

theorem mem_batchResults (env : Env) (req : BatchRequest) (fid : Nat)
    (cs : List Candidate) (h : (fid, cs) ∈ batchResults env req) :
    cs = rankFemale env req fid := by
  simp only [batchResults, List.mem_map] at h
  obtain ⟨a, _, ha⟩ := h
  obtain ⟨h1, h2⟩ := Prod.mk.injEq .. ▸ ha
  rw [← h2, ← h1]

/-- Claim C1: every candidate returned for a female by a successful batch
mating response has an inbreeding value strictly below the request's
`max_inbreeding` threshold (bulls at or above the threshold are discarded
before ranking). -/
theorem batch_candidates_below_max_inbreeding (env : Env) (req : BatchRequest)
    (s : ServerState) (results : List (Nat × List Candidate)) (fid : Nat)
    (cs : List Candidate) (c : Candidate)
    (hok : (batchMating env req s).1 = Except.ok results)
    (hmem : (fid, cs) ∈ results) (hc : c ∈ cs) :
    c.inbreeding < req.max_inbreeding := by
  rw [batchMating_ok env req s results hok] at hmem
  rw [mem_batchResults env req fid cs hmem] at hc
  exact rankFemale_inbreeding_lt env req fid c hc

/-- Witness for C1: the default demo request succeeds, its response lists
bull 1 (inbreeding 4%) for female 1, and the theorem applies to it. -/
theorem batch_candidates_below_max_inbreeding_witness :
    ((batchMating demoEnv demoReq demoState).1 = Except.ok (batchResults demoEnv demoReq) ∧
        (1, rankFemale demoEnv demoReq 1) ∈ batchResults demoEnv demoReq ∧
        (⟨1, 4, 4⟩ : Candidate) ∈ rankFemale demoEnv demoReq 1) ∧
      (⟨1, 4, 4⟩ : Candidate).inbreeding < demoReq.max_inbreeding :=
  ⟨⟨by with_unfolding_all rfl, by with_unfolding_all decide, by with_unfolding_all decide⟩,
    batch_candidates_below_max_inbreeding demoEnv demoReq demoState
      (batchResults demoEnv demoReq) 1 (rankFemale demoEnv demoReq 1) ⟨1, 4, 4⟩
      (by with_unfolding_all rfl) (by with_unfolding_all decide)
      (by with_unfolding_all decide)⟩

/-- Claim C2: every candidate list of a successful batch mating response
is sorted by suitability score in descending order, and any two candidates
with equal scores appear in ascending order of inbreeding. -/
theorem batch_candidates_sorted (env : Env) (req : BatchRequest)
    (s : ServerState) (results : List (Nat × List Candidate)) (fid : Nat)
    (cs : List Candidate)
    (hok : (batchMating env req s).1 = Except.ok results)
    (hmem : (fid, cs) ∈ results) :
    cs.Pairwise
      (fun a b => b.score ≤ a.score ∧ (a.score = b.score → a.inbreeding ≤ b.inbreeding)) := by
  rw [batchMating_ok env req s results hok] at hmem
  rw [mem_batchResults env req fid cs hmem]
  exact rankFemale_sorted env req fid

/-- Witness for C2: the default demo request succeeds and the list
returned for female 1 is sorted as the theorem states. -/
theorem batch_candidates_sorted_witness :
    ((batchMating demoEnv demoReq demoState).1 = Except.ok (batchResults demoEnv demoReq) ∧
        (1, rankFemale demoEnv demoReq 1) ∈ batchResults demoEnv demoReq) ∧
      (rankFemale demoEnv demoReq 1).Pairwise
        (fun a b => b.score ≤ a.score ∧ (a.score = b.score → a.inbreeding ≤ b.inbreeding)) :=
  ⟨⟨by with_unfolding_all rfl, by with_unfolding_all decide⟩,
    batch_candidates_sorted demoEnv demoReq demoState
      (batchResults demoEnv demoReq) 1 (rankFemale demoEnv demoReq 1)
      (by with_unfolding_all rfl) (by with_unfolding_all decide)⟩

/-- Claim C3: a successful batch mating response returns at most `top_n`
candidates per female; when at least `top_n` bulls pass the inbreeding
threshold, exactly `top_n` are returned; and every returned candidate
scores at least as high as every eligible bull left out. -/
theorem batch_candidates_top_n (env : Env) (req : BatchRequest)
    (s : ServerState) (results : List (Nat × List Candidate)) (fid : Nat)
    (cs : List Candidate)
    (hok : (batchMating env req s).1 = Except.ok results)
    (hmem : (fid, cs) ∈ results) :
    cs.length ≤ req.top_n ∧
      (req.top_n ≤ (keptCandidates env req fid).length → cs.length = req.top_n) ∧
      (∀ c ∈ cs, ∀ d ∈ keptCandidates env req fid, d ∉ cs → d.score ≤ c.score) := by
  rw [batchMating_ok env req s results hok] at hmem
  rw [mem_batchResults env req fid cs hmem]
  exact rankFemale_top_n env req fid

/-- Witness for C3: the default demo request succeeds; female 1's list has
at most 5 entries, and the score-dominance property holds for it. -/
theorem batch_candidates_top_n_witness :
    ((batchMating demoEnv demoReq demoState).1 = Except.ok (batchResults demoEnv demoReq) ∧
        (1, rankFemale demoEnv demoReq 1) ∈ batchResults demoEnv demoReq) ∧
      (rankFemale demoEnv demoReq 1).length ≤ demoReq.top_n ∧
      (demoReq.top_n ≤ (keptCandidates demoEnv demoReq 1).length →
        (rankFemale demoEnv demoReq 1).length = demoReq.top_n) ∧
      (∀ c ∈ rankFemale demoEnv demoReq 1, ∀ d ∈ keptCandidates demoEnv demoReq 1,
        d ∉ rankFemale demoEnv demoReq 1 → d.score ≤ c.score) :=
  ⟨⟨by with_unfolding_all rfl, by with_unfolding_all decide⟩,
    batch_candidates_top_n demoEnv demoReq demoState
      (batchResults demoEnv demoReq) 1 (rankFemale demoEnv demoReq 1)
      (by with_unfolding_all rfl) (by with_unfolding_all decide)⟩

/-- Claim C4: a valid batch request for which no bull passes the
inbreeding threshold yields a successful (2xx) response carrying an empty
candidate list for every female, not an error. -/
theorem batch_no_candidates_ok (env : Env) (req : BatchRequest) (s : ServerState)
    (hmax : 0 ≤ req.max_inbreeding) (htop : req.top_n ≠ 0)
    (hf : ∀ fid ∈ req.female_ids, (findFemale env fid).isSome)
    (hk : ∀ fid ∈ req.female_ids, keptCandidates env req fid = []) :
    (batchMating env req s).1 = Except.ok (batchResults env req) ∧
      ∀ p ∈ batchResults env req, p.2 = [] := by
  have hAny : req.female_ids.any (fun fid => (findFemale env fid).isNone) = false := by
    rw [List.any_eq_false]
    intro fid hfid
    have h1 := hf fid hfid
    cases hopt : findFemale env fid with
    | none => rw [hopt] at h1; simp at h1
    | some f => simp
  constructor
  · unfold batchMating
    rw [if_neg (not_lt.mpr hmax), if_neg htop, hAny]
    by_cases hs : req.save <;> simp [hs]
  · intro p hp
    simp only [batchResults, List.mem_map] at hp
    obtain ⟨fid, hfid, rfl⟩ := hp
    simp only [rankFemale, hk fid hfid]
    show List.take req.top_n [] = []
    exact List.take_nil

/-- Witness for C4: under the demo catalog with `max_inbreeding = 0` every
bull's inbreeding is positive, and the batch response is a success with an
empty list for the female. -/
theorem batch_no_candidates_ok_witness :
    (0 ≤ demoReqZero.max_inbreeding ∧ demoReqZero.top_n ≠ 0 ∧
        (∀ fid ∈ demoReqZero.female_ids, (findFemale demoEnv fid).isSome) ∧
        (∀ fid ∈ demoReqZero.female_ids, keptCandidates demoEnv demoReqZero fid = [])) ∧
      (batchMating demoEnv demoReqZero demoState).1 = Except.ok (batchResults demoEnv demoReqZero) ∧
      ∀ p ∈ batchResults demoEnv demoReqZero, p.2 = [] :=
  ⟨⟨by with_unfolding_all decide, by decide, by decide, by with_unfolding_all decide⟩,
    batch_no_candidates_ok demoEnv demoReqZero demoState
      (by with_unfolding_all decide) (by decide) (by decide) (by with_unfolding_all decide)⟩

/-- Claim C5: with `save = false` a batch request leaves the Mating store
untouched, and repeating it yields the identical ranked results. -/
theorem batch_save_false_pure (env : Env) (req : BatchRequest) (s : ServerState)
    (hsave : req.save = false) :
    (batchMating env req s).2 = s ∧
      (batchMating env req ((batchMating env req s).2)).1 = (batchMating env req s).1 := by
  have h2 : (batchMating env req s).2 = s := by
    unfold batchMating
    rw [hsave]
    split_ifs <;> simp_all
  exact ⟨h2, by rw [h2]⟩

/-- Witness for C5: the demo request has `save = false`, so running it on
the empty store changes nothing and repeating it returns the same
results. -/
theorem batch_save_false_pure_witness :
    demoReq.save = false ∧
      (batchMating demoEnv demoReq demoState).2 = demoState ∧
      (batchMating demoEnv demoReq ((batchMating demoEnv demoReq demoState).2)).1 =
        (batchMating demoEnv demoReq demoState).1 :=
  ⟨rfl, (batch_save_false_pure demoEnv demoReq demoState rfl).1,
    (batch_save_false_pure demoEnv demoReq demoState rfl).2⟩

/-- Claim C6: manual mating creation with a female id or bull id absent
from its catalog fails with `NotFoundError` and leaves the Mating store
unchanged. -/
theorem manual_mating_not_found (env : Env) (fid bid : Nat) (save : Bool) (s : ServerState)
    (h : findFemale env fid = none ∨ findBull env bid = none) :
    (manualMating env fid bid save s).1 = Except.error ApiError.NotFoundError ∧
      (manualMating env fid bid save s).2 = s := by
  rcases h with h | h
  · cases hb : findBull env bid <;> simp [manualMating, h, hb]
  · cases hf : findFemale env fid <;> simp [manualMating, hf, h]

/-- Witness for C6: female id 99 is absent from the demo catalog, so the
manual mating fails with `NotFoundError` and the store is unchanged. -/
theorem manual_mating_not_found_witness :
    findFemale demoEnv 99 = none ∧
      (manualMating demoEnv 99 1 true demoState).1 = Except.error ApiError.NotFoundError ∧
      (manualMating demoEnv 99 1 true demoState).2 = demoState :=
  ⟨rfl, (manual_mating_not_found demoEnv 99 1 true demoState (Or.inl rfl)).1,
    (manual_mating_not_found demoEnv 99 1 true demoState (Or.inl rfl)).2⟩

/-- Counterexample to C7 as stated: on a 404 whose JSON body carries the
`error` string "bull not found", `API.get` throws the generic
`HTTP 404: Not Found` message, not the server-provided string. -/
theorem api_get_message_not_verbatim :
    responseOk demoResp = false ∧
      demoResp.bodyError = some "bull not found" ∧
      API.get demoResp = Except.error "HTTP 404: Not Found" ∧
      API.get demoResp ≠ Except.error "bull not found" :=
  ⟨rfl, rfl, rfl, fun h => absurd (Except.error.inj h) (by decide)⟩

/-- Claim C7 (amended): every non-2xx response makes the client operation
abort by throwing, with no retry; `API.post` surfaces the server-provided
`error` string verbatim (falling back to `HTTP <status>` when it is absent
or empty), while `API.get` and `API.put` throw generic `HTTP <status>`
messages that ignore the body's `error` field. -/
theorem api_non_2xx_fail_fast (r : HttpResponse) (h : responseOk r = false) :
    API.get r = Except.error ("HTTP " ++ toString r.status ++ ": " ++ r.statusText) ∧
      API.put r = Except.error ("HTTP " ++ toString r.status) ∧
      (∀ msg, r.bodyError = some msg → msg ≠ "" → API.post r = Except.error msg) ∧
      (r.bodyError = none → API.post r = Except.error ("HTTP " ++ toString r.status)) := by
  refine ⟨?_, ?_, ?_, ?_⟩
  · simp [API.get, h]
  · simp [API.put, h]
  · intro msg hm hne
    simp [API.post, h, hm, jsOrStr, hne]
  · intro hm
    simp [API.post, h, hm, jsOrStr]

/-- Witness for C7 (amended): the 404 demo response triggers the generic
messages on GET and PUT and the verbatim body message on POST. -/
theorem api_non_2xx_fail_fast_witness :
    responseOk demoResp = false ∧
      API.get demoResp =
        Except.error ("HTTP " ++ toString demoResp.status ++ ": " ++ demoResp.statusText) ∧
      API.put demoResp = Except.error ("HTTP " ++ toString demoResp.status) ∧
      (∀ msg, demoResp.bodyError = some msg → msg ≠ "" →
        API.post demoResp = Except.error msg) ∧
      (demoResp.bodyError = none →
        API.post demoResp = Except.error ("HTTP " ++ toString demoResp.status)) :=
  ⟨rfl, api_non_2xx_fail_fast demoResp rfl⟩

/-- Counterexample to C8 as stated: a caller-supplied `max_inbreeding = 0`
(and `top_n = 0`) is not sent verbatim — the JavaScript `||` treats `0` as
falsy, so the body carries the defaults 6.0 and 5 instead. -/
theorem createBatchMating_zero_not_exact :
    demoOptsZero.max_inbreeding = some 0 ∧
      (API.createBatchMating [1] demoOptsZero).max_inbreeding = 6 ∧
      (6 : Rat) ≠ 0 ∧
      demoOptsZero.top_n = some 0 ∧
      (API.createBatchMating [1] demoOptsZero).top_n = 5 :=
  ⟨rfl, by decide, by decide, rfl, by decide⟩

/-- Claim C8 (amended): the batch body contains `max_inbreeding = 6.0`,
`top_n = 5` and `save = false` when the caller omits them, and the
caller-supplied values when provided — except that the falsy value `0`
supplied for `max_inbreeding` or `top_n` is replaced by the default
(`save` is passed exactly, `false` coinciding with its default). -/
theorem createBatchMating_defaults (femaleIds : List Nat) (options : BatchOptions) :
    (API.createBatchMating femaleIds options).female_ids = femaleIds ∧
      (API.createBatchMating femaleIds options).priorities = options.priorities ∧
      (API.createBatchMating femaleIds options).filters = options.filters ∧
      (options.max_inbreeding = none →
        (API.createBatchMating femaleIds options).max_inbreeding = 6) ∧
      (∀ x, options.max_inbreeding = some x → x ≠ 0 →
        (API.createBatchMating femaleIds options).max_inbreeding = x) ∧
      (options.max_inbreeding = some 0 →
        (API.createBatchMating femaleIds options).max_inbreeding = 6) ∧
      (options.top_n = none → (API.createBatchMating femaleIds options).top_n = 5) ∧
      (∀ x, options.top_n = some x → x ≠ 0 →
        (API.createBatchMating femaleIds options).top_n = x) ∧
      (options.top_n = some 0 → (API.createBatchMating femaleIds options).top_n = 5) ∧
      (options.save = none → (API.createBatchMating femaleIds options).save = false) ∧
      (∀ b, options.save = some b → (API.createBatchMating femaleIds options).save = b) := by
  refine ⟨rfl, rfl, rfl, ?_, ?_, ?_, ?_, ?_, ?_, ?_, ?_⟩
  · intro h; simp [API.createBatchMating, jsOrNum, h]
  · intro x hx hne; simp [API.createBatchMating, jsOrNum, hx, hne]
  · intro h; simp [API.createBatchMating, jsOrNum, h]
  · intro h; simp [API.createBatchMating, jsOrNum, h]
  · intro x hx hne; simp [API.createBatchMating, jsOrNum, hx, hne]
  · intro h; simp [API.createBatchMating, jsOrNum, h]
  · intro h; simp [API.createBatchMating, jsOrBool, h]
  · intro b hb; cases b <;> simp [API.createBatchMating, jsOrBool, hb]

/-- Claim C9: the three bar-width percentages computed by
`updateHerdAverages` lie in the closed interval [0, 100] for every numeric
input, including values outside the assumed ranges. -/
theorem herd_average_bars_in_range (milk pl inb : Rat) :
    0 ≤ (updateHerdAverages milk pl inb).1 ∧ (updateHerdAverages milk pl inb).1 ≤ 100 ∧
      0 ≤ (updateHerdAverages milk pl inb).2.1 ∧ (updateHerdAverages milk pl inb).2.1 ≤ 100 ∧
      0 ≤ (updateHerdAverages milk pl inb).2.2 ∧ (updateHerdAverages milk pl inb).2.2 ≤ 100 := by
  unfold updateHerdAverages milkPercent plPercent inbPercent
  exact ⟨le_max_left _ _, max_le (by norm_num) (min_le_left _ _),
    le_max_left _ _, max_le (by norm_num) (min_le_left _ _),
    le_max_left _ _, max_le (by norm_num) (min_le_left _ _)⟩

/-- Claim C10: `getInbreedingColor` returns "success" exactly below 6,
"warning" exactly on [6, 8), and "danger" exactly from 8 on — so the
boundary 8.0 maps to "danger" and 6.0 maps to "warning". -/
theorem getInbreedingColor_boundaries (x : Rat) :
    (getInbreedingColor x = "success" ↔ x < 6) ∧
      (getInbreedingColor x = "warning" ↔ 6 ≤ x ∧ x < 8) ∧
      (getInbreedingColor x = "danger" ↔ 8 ≤ x) := by
  unfold getInbreedingColor
  split_ifs with h1 h2
  · exact ⟨iff_of_true rfl h1,
      iff_of_false (by decide) (fun h => absurd h1 (not_lt.mpr h.1)),
      iff_of_false (by decide)
        (fun h => absurd h1 (not_lt.mpr (le_trans (by norm_num) h)))⟩
  · exact ⟨iff_of_false (by decide) h1,
      iff_of_true rfl ⟨not_lt.mp h1, h2⟩,
      iff_of_false (by decide) (fun h => absurd h2 (not_lt.mpr h))⟩
  · exact ⟨iff_of_false (by decide) h1,
      iff_of_false (by decide) (fun h => h2 h.2),
      iff_of_true rfl (not_lt.mp h2)⟩
